import Mathlib

/-!
Shallow embedding of the NEST repository's message-dispatch and
tool-orchestration core (src/nanda_core/core/agent_bridge.py,
mcp_client.py, mcp_registry.py).

Python strings are modelled as Lean `String`s; all Python string
operations (slicing, `split`, `strip`, `startswith`, `in`, `title`,
`replace`, `lower`) are implemented character-wise over `String.data`,
matching Python's code-point semantics.  JSON values from `json.loads`
are modelled by the inductive `Json` (integers only; floats are not
needed by any claim).  Network calls, the agent-logic callback, the
language-model service and tool execution are oracles supplied through
environment records; Python exceptions are modelled with `Except`.
-/

namespace NEST

/-- Character-list prefix test (Python `str.startswith`, on char lists). -/
def chPre : List Char → List Char → Bool
  | [], _ => true
  | _ :: _, [] => false
  | a :: as, b :: bs => a = b && chPre as bs

/-- Python `s.startswith(p)`. -/
def pyStartsWith (s p : String) : Bool := chPre p.data s.data

/-- Python `s.endswith(p)`. -/
def pyEndsWith (s p : String) : Bool := chPre p.data.reverse s.data.reverse

/-- Python `needle in hay` (substring containment). -/
def strContains (hay needle : String) : Bool :=
  (List.range (hay.data.length + 1)).any (fun i => chPre needle.data (hay.data.drop i))

/-- Python `c in s` for a single character. -/
def containsChar (s : String) (c : Char) : Bool := s.data.contains c

/-- Python `s[n:]` (character slicing, clamped). -/
def pyDropChars (s : String) (n : Nat) : String := String.mk (s.data.drop n)

/-- The whitespace set of Python `str.strip()`. -/
def isPySpace (c : Char) : Bool :=
  c = ' ' || c = '\t' || c = '\n' || c = '\r' || c = '\x0b' || c = '\x0c'

/-- Python `s.strip()`. -/
def pyStrip (s : String) : String :=
  String.mk (((s.data.dropWhile isPySpace).reverse.dropWhile isPySpace).reverse)

/-- Python `s.split(sep)` for a single-character separator (no maxsplit). -/
def splitCharAux (c : Char) : List Char → List (List Char)
  | [] => [[]]
  | x :: xs =>
    match splitCharAux c xs with
    | [] => [[]]
    | h :: t => if x = c then [] :: h :: t else (x :: h) :: t

/-- Python `s.split(sep, 1)`: `none` when the separator is absent,
otherwise the parts before and after its first occurrence. -/
def splitFirstAux (c : Char) : List Char → Option (List Char × List Char)
  | [] => none
  | x :: xs =>
    if x = c then some ([], xs)
    else
      match splitFirstAux c xs with
      | none => none
      | some (a, b) => some (x :: a, b)

/-- Python `s.lower()` (ASCII-adequate). -/
def pyLower (s : String) : String := String.mk (s.data.map Char.toLower)

/-- Helper for Python `str.title()`: tracks whether the previous
character was alphabetic. -/
def titleAux : Bool → List Char → List Char
  | _, [] => []
  | prev, c :: cs =>
    (if c.isAlpha then (if prev then c.toLower else c.toUpper) else c) :: titleAux c.isAlpha cs

/-- Python `s.title()` (ASCII-adequate). -/
def pyTitle (s : String) : String := String.mk (titleAux false s.data)

/-- Python `s.replace(a, b)` for single characters. -/
def pyReplace (s : String) (a b : Char) : String :=
  String.mk (s.data.map (fun c => if c = a then b else c))

/-- JSON values as produced by Python `json.loads` (numbers restricted
to integers; no claim involves floats). -/
inductive Json where
  | str (s : String)
  | num (n : Int)
  | bool (b : Bool)
  | null
  | arr (xs : List Json)
  | obj (kvs : List (String × Json))

mutual
/-- Boolean equality on JSON values (nested inductive, so the
`DecidableEq` instance is built by hand). -/
def jsonBEq : Json → Json → Bool
  | .str a, .str b => a = b
  | .num a, .num b => a = b
  | .bool a, .bool b => a = b
  | .null, .null => true
  | .arr a, .arr b => jsonListBEq a b
  | .obj a, .obj b => jsonPairsBEq a b
  | _, _ => false

def jsonListBEq : List Json → List Json → Bool
  | [], [] => true
  | a :: as, b :: bs => jsonBEq a b && jsonListBEq as bs
  | _, _ => false

def jsonPairsBEq : List (String × Json) → List (String × Json) → Bool
  | [], [] => true
  | (k1, v1) :: as, (k2, v2) :: bs => k1 = k2 && jsonBEq v1 v2 && jsonPairsBEq as bs
  | _, _ => false
end

mutual
theorem jsonBEq_refl : (a : Json) → jsonBEq a a = true
  | .str _ => by simp [jsonBEq]
  | .num _ => by simp [jsonBEq]
  | .bool _ => by simp [jsonBEq]
  | .null => by simp [jsonBEq]
  | .arr xs => by simp [jsonBEq, jsonListBEq_refl xs]
  | .obj kvs => by simp [jsonBEq, jsonPairsBEq_refl kvs]

theorem jsonListBEq_refl : (l : List Json) → jsonListBEq l l = true
  | [] => by simp [jsonListBEq]
  | x :: xs => by simp [jsonListBEq, jsonBEq_refl x, jsonListBEq_refl xs]

theorem jsonPairsBEq_refl : (l : List (String × Json)) → jsonPairsBEq l l = true
  | [] => by simp [jsonPairsBEq]
  | (k, v) :: xs => by simp [jsonPairsBEq, jsonBEq_refl v, jsonPairsBEq_refl xs]
end

mutual
theorem jsonBEq_eq : (a b : Json) → jsonBEq a b = true → a = b
  | .str _, .str _, h => by simpa [jsonBEq] using congrArg Json.str (by simpa [jsonBEq] using h)
  | .num _, .num _, h => by simpa using congrArg Json.num (by simpa [jsonBEq] using h)
  | .bool _, .bool _, h => by simpa using congrArg Json.bool (by simpa [jsonBEq] using h)
  | .null, .null, _ => rfl
  | .arr xs, .arr ys, h => congrArg Json.arr (jsonListBEq_eq xs ys (by simpa [jsonBEq] using h))
  | .obj a, .obj b, h => congrArg Json.obj (jsonPairsBEq_eq a b (by simpa [jsonBEq] using h))
  | .str _, .num _, h => by simp [jsonBEq] at h
  | .str _, .bool _, h => by simp [jsonBEq] at h
  | .str _, .null, h => by simp [jsonBEq] at h
  | .str _, .arr _, h => by simp [jsonBEq] at h
  | .str _, .obj _, h => by simp [jsonBEq] at h
  | .num _, .str _, h => by simp [jsonBEq] at h
  | .num _, .bool _, h => by simp [jsonBEq] at h
  | .num _, .null, h => by simp [jsonBEq] at h
  | .num _, .arr _, h => by simp [jsonBEq] at h
  | .num _, .obj _, h => by simp [jsonBEq] at h
  | .bool _, .str _, h => by simp [jsonBEq] at h
  | .bool _, .num _, h => by simp [jsonBEq] at h
  | .bool _, .null, h => by simp [jsonBEq] at h
  | .bool _, .arr _, h => by simp [jsonBEq] at h
  | .bool _, .obj _, h => by simp [jsonBEq] at h
  | .null, .str _, h => by simp [jsonBEq] at h
  | .null, .num _, h => by simp [jsonBEq] at h
  | .null, .bool _, h => by simp [jsonBEq] at h
  | .null, .arr _, h => by simp [jsonBEq] at h
  | .null, .obj _, h => by simp [jsonBEq] at h
  | .arr _, .str _, h => by simp [jsonBEq] at h
  | .arr _, .num _, h => by simp [jsonBEq] at h
  | .arr _, .bool _, h => by simp [jsonBEq] at h
  | .arr _, .null, h => by simp [jsonBEq] at h
  | .arr _, .obj _, h => by simp [jsonBEq] at h
  | .obj _, .str _, h => by simp [jsonBEq] at h
  | .obj _, .num _, h => by simp [jsonBEq] at h
  | .obj _, .bool _, h => by simp [jsonBEq] at h
  | .obj _, .null, h => by simp [jsonBEq] at h
  | .obj _, .arr _, h => by simp [jsonBEq] at h

theorem jsonListBEq_eq : (a b : List Json) → jsonListBEq a b = true → a = b
  | [], [], _ => rfl
  | x :: xs, y :: ys, h => by
    have h2 := h
    simp only [jsonListBEq, Bool.and_eq_true] at h2
    exact congrArg₂ List.cons (jsonBEq_eq x y h2.1) (jsonListBEq_eq xs ys h2.2)
  | [], _ :: _, h => by simp [jsonListBEq] at h
  | _ :: _, [], h => by simp [jsonListBEq] at h

theorem jsonPairsBEq_eq : (a b : List (String × Json)) → jsonPairsBEq a b = true → a = b
  | [], [], _ => rfl
  | (k1, v1) :: xs, (k2, v2) :: ys, h => by
    have h2 := h
    simp only [jsonPairsBEq, Bool.and_eq_true, decide_eq_true_eq] at h2
    refine congrArg₂ List.cons ?_ (jsonPairsBEq_eq xs ys h2.2)
    exact congrArg₂ Prod.mk h2.1.1 (jsonBEq_eq v1 v2 h2.1.2)
  | [], _ :: _, h => by simp [jsonPairsBEq] at h
  | _ :: _, [], h => by simp [jsonPairsBEq] at h
end

instance : DecidableEq Json := fun a b =>
  if h : jsonBEq a b = true then .isTrue (jsonBEq_eq a b h)
  else .isFalse (fun he => h (he ▸ jsonBEq_refl a))

/-- First-match association lookup (Python `dict.get(k)`; keys are
unique in dicts built by `json.loads`, so first match is the value). -/
def assocGet : List (String × Json) → String → Option Json
  | [], _ => none
  | (k, v) :: kvs, key => if k = key then some v else assocGet kvs key

/-- Python truthiness of a JSON value. -/
def pyTruthy : Json → Bool
  | .str s => s ≠ ""
  | .num n => n ≠ 0
  | .bool b => b
  | .null => false
  | .arr [] => false
  | .arr (_ :: _) => true
  | .obj [] => false
  | .obj (_ :: _) => true

/-- Python truthiness of `dict.get(k)` (absent key gives `None`, falsy). -/
def optTruthy : Option Json → Bool
  | none => false
  | some v => pyTruthy v

mutual
/-- Python `repr` of a JSON value (string escaping elided: the repo
never feeds quote-bearing strings through `repr`). -/
def pyRepr : Json → String
  | .str s => "\x27" ++ s ++ "\x27"
  | .num n => toString n
  | .bool b => if b then "True" else "False"
  | .null => "None"
  | .arr xs => "[" ++ String.intercalate ", " (pyReprList xs) ++ "]"
  | .obj kvs => "\x7b" ++ String.intercalate ", " (pyReprPairs kvs) ++ "\x7d"

def pyReprList : List Json → List String
  | [] => []
  | x :: xs => pyRepr x :: pyReprList xs

def pyReprPairs : List (String × Json) → List String
  | [] => []
  | (k, v) :: kvs => ("\x27" ++ k ++ "\x27: " ++ pyRepr v) :: pyReprPairs kvs
end

/-- Python `str` of a JSON value. -/
def pyStr : Json → String
  | .str s => s
  | j => pyRepr j

/-! ### A model of `json.loads`

A fuel-bounded recursive-descent parser for the JSON dialect the repo
exchanges (strings with the common escapes, integers, booleans, null,
arrays, objects).  Floats are rejected; no claim depends on them. -/

/-- Skip JSON insignificant whitespace. -/
def skipWs : List Char → List Char
  | [] => []
  | c :: cs => if c = ' ' || c = '\t' || c = '\n' || c = '\r' then skipWs cs else c :: cs

/-- Parse the remainder of a JSON string literal (opening quote already
consumed); returns the decoded string and the rest of the input. -/
def parseStringLit : List Char → Option (String × List Char)
  | [] => none
  | c :: cs =>
    if c = '"' then some ("", cs)
    else if c = '\\' then
      match cs with
      | [] => none
      | e :: cs2 =>
        let ec : Option Char :=
          if e = '"' then some '"'
          else if e = '\\' then some '\\'
          else if e = '/' then some '/'
          else if e = 'n' then some '\n'
          else if e = 't' then some '\t'
          else if e = 'r' then some '\r'
          else if e = 'b' then some '\x08'
          else if e = 'f' then some '\x0c'
          else none
        match ec with
        | none => none
        | some c2 =>
          match parseStringLit cs2 with
          | none => none
          | some (s, rest) => some (String.mk (c2 :: s.data), rest)
    else
      match parseStringLit cs with
      | none => none
      | some (s, rest) => some (String.mk (c :: s.data), rest)

/-- Accumulating digit reader: value of the consumed digit run. -/
def readDigits (acc : Nat) : List Char → Nat × List Char
  | [] => (acc, [])
  | c :: cs =>
    if c.isDigit then readDigits (acc * 10 + (c.toNat - '0'.toNat)) cs
    else (acc, c :: cs)

/-- True when the next character would make the number a float
(rejected by this model). -/
def floatFollows : List Char → Bool
  | [] => false
  | c :: _ => c = '.' || c = 'e' || c = 'E'

/-- Parse a JSON integer token. -/
def parseIntTok : List Char → Option (Json × List Char)
  | '-' :: c :: cs =>
    if c.isDigit then
      let (n, rest) := readDigits (c.toNat - '0'.toNat) cs
      if floatFollows rest then none else some (.num (-(n : Int)), rest)
    else none
  | c :: cs =>
    if c.isDigit then
      let (n, rest) := readDigits (c.toNat - '0'.toNat) cs
      if floatFollows rest then none else some (.num (n : Int), rest)
    else none
  | [] => none

/-- Consume an expected literal character sequence. -/
def expectChars : List Char → List Char → Option (List Char)
  | [], cs => some cs
  | _ :: _, [] => none
  | e :: es, c :: cs => if e = c then expectChars es cs else none

mutual
/-- Parse one JSON value (fuel-bounded). -/
def parseVal : Nat → List Char → Option (Json × List Char)
  | 0, _ => none
  | fuel + 1, cs0 =>
    match skipWs cs0 with
    | [] => none
    | c :: rest =>
      if c = '"' then
        match parseStringLit rest with
        | some (s, r) => some (.str s, r)
        | none => none
      else if c = '[' then
        match skipWs rest with
        | ']' :: r2 => some (.arr [], r2)
        | r1 =>
          match parseItems fuel r1 with
          | some (xs, r2) => some (.arr xs, r2)
          | none => none
      else if c = '\x7b' then
        match skipWs rest with
        | '\x7d' :: r2 => some (.obj [], r2)
        | r1 =>
          match parseMembers fuel r1 with
          | some (kvs, r2) => some (.obj kvs, r2)
          | none => none
      else if c = 't' then
        match expectChars ['r', 'u', 'e'] rest with
        | some r => some (.bool true, r)
        | none => none
      else if c = 'f' then
        match expectChars ['a', 'l', 's', 'e'] rest with
        | some r => some (.bool false, r)
        | none => none
      else if c = 'n' then
        match expectChars ['u', 'l', 'l'] rest with
        | some r => some (.null, r)
        | none => none
      else parseIntTok (c :: rest)

/-- Parse the items of a nonempty JSON array, up to and including `]`. -/
def parseItems : Nat → List Char → Option (List Json × List Char)
  | 0, _ => none
  | fuel + 1, cs =>
    match parseVal fuel cs with
    | none => none
    | some (v, r) =>
      match skipWs r with
      | ',' :: r2 =>
        match parseItems fuel r2 with
        | some (vs, r3) => some (v :: vs, r3)
        | none => none
      | ']' :: r2 => some ([v], r2)
      | _ => none

/-- Parse the members of a nonempty JSON object, up to and including
the closing brace. -/
def parseMembers : Nat → List Char → Option (List (String × Json) × List Char)
  | 0, _ => none
  | fuel + 1, cs =>
    match skipWs cs with
    | '"' :: r =>
      match parseStringLit r with
      | none => none
      | some (k, r1) =>
        match skipWs r1 with
        | ':' :: r2 =>
          match parseVal fuel r2 with
          | none => none
          | some (v, r3) =>
            match skipWs r3 with
            | ',' :: r4 =>
              match parseMembers fuel r4 with
              | some (kvs, r5) => some ((k, v) :: kvs, r5)
              | none => none
            | '\x7d' :: r4 => some ([(k, v)], r4)
            | _ => none
        | _ => none
    | _ => none
end

/-- Model of Python `json.loads`: parse one value, require only
whitespace to remain, `none` on any parse error (`JSONDecodeError`). -/
def jsonLoads (s : String) : Option Json :=
  match parseVal (2 * s.data.length + 2) s.data with
  | some (v, rest) => if skipWs rest = [] then some v else none
  | none => none

/-! ### Response formatter (mcp_client.py: `MCPClient._format_json_response`,
`MCPClient._extract_and_format_json`, `MCPClient._parse_result`) -/

/-- `key.replace('_', ' ').title()` as used throughout the formatter. -/
def humanKey (k : String) : String := pyTitle (pyReplace k '_' ' ')

/-- One item of a list nested inside a mapping value
(mcp_client.py lines 212-218). -/
def renderNestedItem (idx : Nat) (item : Json) : List String :=
  match item with
  | .obj sub =>
    ("  [" ++ toString (idx + 1) ++ "]") ::
      sub.map (fun kv => "    • " ++ humanKey kv.1 ++ ": " ++ pyStr kv.2)
  | _ => ["  • " ++ pyStr item]

/-- The lines produced for one key/value pair of a mapping
(mcp_client.py lines 203-223). -/
def renderDictEntry (k : String) (v : Json) : List String :=
  match v with
  | .obj sub =>
    ("📋 " ++ humanKey k ++ ":") ::
      sub.map (fun kv => "  • " ++ humanKey kv.1 ++ ": " ++ pyStr kv.2)
  | .arr xs =>
    (("📋 " ++ humanKey k ++ ":") ::
      (xs.take 5).enum.flatMap (fun p => renderNestedItem p.1 p.2)) ++
      (if 5 < xs.length then ["  ... and " ++ toString (xs.length - 5) ++ " more items"] else [])
  | _ => ["🔹 " ++ humanKey k ++ ": " ++ pyStr v]

/-- One item of a top-level list (mcp_client.py lines 229-235). -/
def renderTopItem (idx : Nat) (item : Json) : List String :=
  match item with
  | .obj sub =>
    ("📋 Item " ++ toString (idx + 1) ++ ":") ::
      sub.map (fun kv => "  • " ++ humanKey kv.1 ++ ": " ++ pyStr kv.2)
  | _ => ["🔹 Item " ++ toString (idx + 1) ++ ": " ++ pyStr item]

/-- `_format_json_response` on an already-parsed value (the dict / list /
fallback arms, mcp_client.py lines 201-243). -/
def formatCore : Json → String
  | .obj kvs => String.intercalate "\n" (kvs.flatMap (fun kv => renderDictEntry kv.1 kv.2))
  | .arr xs =>
    String.intercalate "\n"
      (((xs.take 10).enum.flatMap (fun p => renderTopItem p.1 p.2)) ++
        (if 10 < xs.length then ["... and " ++ toString (xs.length - 10) ++ " more items"] else []))
  | d => pyStr d

/-- `MCPClient._format_json_response`: a string argument is first passed
through `json.loads` (returned unchanged when that fails); the parsed or
non-string value is then rendered by the dict/list/fallback arms.  Its
enclosing `try/except` is unreachable in this model since every arm is
total. -/
def format_json_response (data : Json) : String :=
  match data with
  | .str s =>
    match jsonLoads s with
    | none => s
    | some j => formatCore j
  | d => formatCore d

/-- The fragment matched by `re.search(r'\x7b.*\x7d', text, re.DOTALL)`:
from the first brace-open to the last brace-close, when the latter comes
after the former. -/
def braceFragment (s : String) : Option String :=
  match s.data.findIdx? (· = '\x7b'), s.data.reverse.findIdx? (· = '\x7d') with
  | some i, some rj =>
    let j := s.data.length - 1 - rj
    if i < j then some (String.mk ((s.data.drop i).take (j - i + 1))) else none
  | _, _ => none

/-- `MCPClient._extract_and_format_json`. -/
def extract_and_format_json (text : String) : String :=
  match braceFragment text with
  | some frag =>
    match jsonLoads frag with
    | some data => format_json_response data
    | none => text
  | none => text

/-- The brace-delimited fragment of `s` that actually parses as JSON,
when there is one (the formatter leaves `s` unchanged iff this is
`none`, given that `s` itself is not JSON). -/
def extractedJson (s : String) : Option Json := (braceFragment s).bind jsonLoads

/-- The `"result"` arm of `_parse_result` (mcp_client.py lines 171-177):
`response_json["result"].get("artifacts", [])`, first artifact, its
`parts`, first part, its `text`.  `.get` on a non-dict raises
`AttributeError` and `len` on a non-sized value raises `TypeError`;
both escape `_parse_result` (its `except` only catches
`JSONDecodeError`), modelled as `.error`.  When artifacts or parts are
empty/falsy, control falls through to formatting the whole dict. -/
def resultBranch (kvs : List (String × Json)) (r : Json) : Except String String :=
  match r with
  | .obj rkvs =>
    match (assocGet rkvs "artifacts").getD (.arr []) with
    | .arr (a0 :: _) =>
      match a0 with
      | .obj akvs =>
        match (assocGet akvs "parts").getD (.arr []) with
        | .arr (p0 :: _) =>
          match p0 with
          | .obj pkvs => .ok (format_json_response ((assocGet pkvs "text").getD (.str "")))
          | _ => .error "AttributeError"
        | .arr [] => .ok (format_json_response (.obj kvs))
        | other =>
          if pyTruthy other then .error "TypeError" else .ok (format_json_response (.obj kvs))
      | _ => .error "AttributeError"
    | .arr [] => .ok (format_json_response (.obj kvs))
    | other =>
      if pyTruthy other then .error "TypeError" else .ok (format_json_response (.obj kvs))
  | _ => .error "AttributeError"

/-- `MCPClient._parse_result` on a string argument.  A parse to a
non-dict value falls through every branch and returns `str(response)`,
i.e. the input itself. -/
def parse_result (s : String) : Except String String :=
  match jsonLoads s with
  | some (.obj kvs) =>
    match assocGet kvs "result" with
    | some r => resultBranch kvs r
    | none => .ok (format_json_response (.obj kvs))
  | some _ => .ok s
  | none => .ok (extract_and_format_json s)

/-! ### Tool orchestrator (mcp_client.py: `MCPClient.execute_query`)

The Anthropic model service, the connected tool list and tool execution
are oracles.  `model k` is the content of the model's response to the
`k`-th `messages.create` call (`k = 0` for the initial query);
`callTool` is `session.call_tool`, whose exceptions propagate to
`execute_query`'s outer `try`.  A `CallToolResult` is neither a `str`
nor a `dict`, so `_parse_result` on it is `str(result)`; the oracle
returns that string directly. -/

structure ToolDef where
  name : String
  description : String
deriving DecidableEq

/-- One content block of a model response. -/
inductive CBlock where
  | text (s : String)
  | toolUse (id name input : String)
deriving DecidableEq

structure MCPEnv where
  /-- `connect_to_server` result: `none` models a connection failure. -/
  tools : Option (List ToolDef)
  model : Nat → List CBlock
  callTool : String → String → Except String String

/-- Does a response contain a tool-invocation block? -/
def hasToolUse (bs : List CBlock) : Bool :=
  bs.any (fun b => match b with | .toolUse _ _ _ => true | _ => false)

/-- Execute the tool calls of one response in order, counting them;
a raised tool error aborts (propagating to the outer `try`). -/
def runTools (env : MCPEnv) : List CBlock → Except String Nat
  | [] => .ok 0
  | .text _ :: bs => runTools env bs
  | .toolUse _ n i :: bs =>
    match env.callTool n i with
    | .error e => .error e
    | .ok _ =>
      match runTools env bs with
      | .ok k => .ok (k + 1)
      | .error e => .error e

/-- The `while True` loop of `execute_query` (lines 108-150), with fuel
for the unbounded iteration.  `round` counts `messages.create` round
trips made so far, `calls` counts tool executions; returns the final
(tool-free) response content and both counters. -/
def toolLoop (env : MCPEnv) (fuel : Nat) (blocks : List CBlock) (round calls : Nat) :
    Except String (List CBlock × Nat × Nat) :=
  if hasToolUse blocks then
    match fuel with
    | 0 => .error "tool loop fuel exhausted"
    | fuel + 1 =>
      match runTools env blocks with
      | .error e => .error e
      | .ok k => toolLoop env fuel (env.model round) (round + 1) (calls + k)
  else .ok (blocks, round, calls)

/-- Newline-terminated concatenation of the text blocks
(`final_response`, lines 152-155). -/
def joinTextBlocks (bs : List CBlock) : String :=
  String.join (bs.filterMap (fun b => match b with | .text s => some (s ++ "\n") | _ => none))

/-- `MCPClient.execute_query`, instrumented with the number of model
round trips and tool calls.  The outer `try` turns any escaped
exception into `"❌ MCP error: <e>"`. -/
def execute_query (env : MCPEnv) (fuel : Nat) (_query : String) : String × Nat × Nat :=
  match env.tools with
  | none => ("❌ Failed to connect to MCP server. Check server URL and authentication.", 0, 0)
  | some [] => ("❌ Failed to connect to MCP server. Check server URL and authentication.", 0, 0)
  | some (_ :: _) =>
    match toolLoop env fuel (env.model 0) 1 0 with
    | .error e => ("❌ MCP error: " ++ e, 0, 0)
    | .ok (final, rounds, calls) =>
      let finalResponse := joinTextBlocks final
      if finalResponse = "" then ("No response generated", rounds, calls)
      else
        match parse_result (pyStrip finalResponse) with
        | .ok r => (r, rounds, calls)
        | .error e => ("❌ MCP error: " ++ e, rounds, calls)

/-! ### Directory client (mcp_registry.py) and message router
(agent_bridge.py)

External effects are oracles in a `BridgeEnv`; every network-touching
step additionally records an `Event`, so the theorems can speak about
which calls were attempted. -/

inductive Event where
  | logicCall (message conv : String)
  | httpGet (url : String)
  | a2aSend (url : String)
  | mcpExec (serverUrl query : String)
deriving DecidableEq

/-- Outcome of `requests.get(f"<registry>/lookup/<id>")` in
`_lookup_agent`: a 200 response carrying `data.get("agent_url")`, a
non-200 status, or a raised exception. -/
inductive RegistryResp where
  | found (agentUrl : Option String)
  | notFound
  | failed (e : String)
deriving DecidableEq

/-- Shape of the reply returned by `A2AClient.send_message` as
inspected in `_send_to_agent` (lines 363-374). -/
inductive A2AResp where
  | noResponse
  | noParts (full : String)
  | withParts (firstText : String)
deriving DecidableEq

structure BridgeEnv where
  agentId : String
  /-- `registry_url`; `none` models unset/empty (falsy). -/
  registryUrl : Option String
  /-- `mcp_registry_url`; `none` models unset/empty (falsy). -/
  mcpRegistryUrl : Option String
  /-- The `SMITHERY_API_KEY` environment value read by both the bridge
  constructor and `MCPRegistry`; `""` models an unconfigured key. -/
  smitheryApiKey : String
  /-- The externally supplied agent-logic callback; `.error` models a
  raised exception. -/
  agentLogic : String → String → Except String String
  registryLookup : String → RegistryResp
  sendA2A : String → String → Except String A2AResp
  /-- `GET https://registry.smithery.ai/servers/<id>`: `some` is the
  parsed 200 body, `none` a non-200 status or raised exception. -/
  smitheryFetch : String → Option Json
  /-- `GET <mcp_registry_url>/mcp_servers/<name>`, same convention. -/
  nandaFetch : String → Option Json
  /-- `MCPClient.execute_query` against a resolved server URL;
  `.error` models a raised exception. -/
  mcpQuery : String → String → Except String String

/-- Python `a or b` on two `dict.get` results. -/
def pyOrOpt (a b : Option Json) : Option Json := if optTruthy a then a else b

/-- `conn.get("type") == "<v>"`: true only when the value is that
exact string. -/
def hasTypeVal (c : List (String × Json)) (v : String) : Bool :=
  match assocGet c "type" with
  | some (.str s) => s = v
  | _ => false

/-- The `for conn in connections` scan of `build_smithery_server_url`
(lines 208-214): stops at the first connection that is http-typed with
a truthy `deploymentUrl` **or** stdio-typed.  The outer `some` is
absent when a non-dict entry raises `AttributeError` on `.get`. -/
def findMcpConn : List Json → Option (Option (List (String × Json)))
  | [] => some none
  | .obj c :: rest =>
    if (hasTypeVal c "http" && optTruthy (assocGet c "deploymentUrl")) ||
        hasTypeVal c "stdio" then
      some (some c)
    else findMcpConn rest
  | _ :: _ => none

/-- `MCPRegistry.build_smithery_server_url`.  Returns `None` when the
top-level `deploymentUrl` is falsy; otherwise the scanned connection's
`deploymentUrl` when that is truthy, else the top-level one.  Iterating
a non-list `connections` or hitting a non-dict entry raises and is
converted to `None` by the enclosing `except` — except that iterating
an empty string/dict yields no entries at all.  Returns the selected
URL *value* (the Python function returns whatever JSON value sits in
the selected field). -/
def build_smithery_server_url (info : Json) : Option Json :=
  match info with
  | .obj kvs =>
    let dep := assocGet kvs "deploymentUrl"
    if optTruthy dep then
      let scan : Option (Option (List (String × Json))) :=
        match (assocGet kvs "connections").getD (.arr []) with
        | .arr cs => findMcpConn cs
        | .str "" => some none
        | .obj [] => some none
        | _ => none
      match scan with
      | none => none
      | some (some c) =>
        if pyTruthy (.obj c) && optTruthy (assocGet c "deploymentUrl") then
          assocGet c "deploymentUrl"
        else dep
      | some none => dep
    else none
  | _ => none

/-- What the bridge later reads from a resolved server-info dict:
the `server_url` value (`none` when absent). -/
structure ServerInfo where
  serverUrl : Option Json
deriving DecidableEq

/-- `MCPRegistry.get_smithery_server_info`: guarded by the API key,
then one authenticated GET against the Smithery registry. -/
def get_smithery_server_info (env : BridgeEnv) (serverId : String) :
    Option Json × List Event :=
  if env.smitheryApiKey = "" then (none, [])
  else (env.smitheryFetch serverId,
    [.httpGet ("https://registry.smithery.ai/servers/" ++ serverId)])

/-- `MCPRegistry.get_smithery_mcp_server_info_complete`: returns `None`
before any network call when the API key is unset; otherwise fetches
the server info and builds the URL, `None` when either step fails. -/
def get_smithery_mcp_server_info_complete (env : BridgeEnv) (serverName : String) :
    Option ServerInfo × List Event :=
  if env.smitheryApiKey = "" then (none, [])
  else
    match get_smithery_server_info env serverName with
    | (none, ev) => (none, ev)
    | (some info, ev) =>
      match build_smithery_server_url info with
      | none => (none, ev)
      | some url => (some ⟨some url⟩, ev)

/-- `MCPRegistry.get_nanda_mcp_server_info`: one GET against the MCP
registry; `server_url` is `data.get("server_url") or data.get("endpoint")`.
A non-dict 200 body raises on `.get` and the `except` returns `None`. -/
def get_nanda_mcp_server_info (env : BridgeEnv) (mcpUrl serverName : String) :
    Option ServerInfo × List Event :=
  let ev := [Event.httpGet (mcpUrl ++ "/mcp_servers/" ++ serverName)]
  match env.nandaFetch serverName with
  | some (.obj d) => (some ⟨pyOrOpt (assocGet d "server_url") (assocGet d "endpoint")⟩, ev)
  | some _ => (none, ev)
  | none => (none, ev)

/-- `MCPRegistry.get_mcp_server_info`: dispatch on the lower-cased
provider; unknown providers resolve to `None`. -/
def get_mcp_server_info (env : BridgeEnv) (mcpUrl provider serverName : String) :
    Option ServerInfo × List Event :=
  if pyLower provider = "smithery" then get_smithery_mcp_server_info_complete env serverName
  else if pyLower provider = "nanda" then get_nanda_mcp_server_info env mcpUrl serverName
  else (none, [])

/-! ### The message router (agent_bridge.py: `SimpleAgentBridge`) -/

/-- `SimpleAgentBridge._create_response`: every reply text is prefixed
with the responding agent's own identifier. -/
def create (env : BridgeEnv) (text : String) : String :=
  "[" ++ env.agentId ++ "] " ++ text

/-- The reserved reply marker (agent_bridge.py line 124). -/
def replyMarker : String := "Response to "

structure Envl where
  fromAgent : String
  toAgent : String
  message : String
deriving DecidableEq

/-- The line-parsing loop of `_handle_incoming_agent_message`
(lines 108-119): strip, split on newlines, last matching line of each
label wins, label prefix removed and the remainder stripped. -/
def parseEnvelope (t : String) : Envl :=
  ((splitCharAux '\n' (pyStrip t).data).map String.mk).foldl
    (fun acc line =>
      if pyStartsWith line "FROM:" then { acc with fromAgent := pyStrip (pyDropChars line 5) }
      else if pyStartsWith line "TO:" then { acc with toAgent := pyStrip (pyDropChars line 3) }
      else if pyStartsWith line "MESSAGE:" then { acc with message := pyStrip (pyDropChars line 8) }
      else acc)
    ⟨"", "", ""⟩

/-- `SimpleAgentBridge._handle_incoming_agent_message`.  A body that
starts with the reply marker is surfaced to the user with a fixed
number of characters stripped — `len("Response to " + agent_id + ": ")`
— and agent logic is not invoked; otherwise agent logic runs and the
reply is wrapped as `Response to <sender>: <result>`.  Its `except`
converts a raised agent-logic error into an error reply. -/
def handle_incoming_agent (env : BridgeEnv) (t conv : String) : String × List Event :=
  let e := parseEnvelope t
  if pyStartsWith e.message replyMarker then
    (create env ("[" ++ e.fromAgent ++ "] " ++
      pyDropChars e.message (replyMarker ++ env.agentId ++ ": ").length), [])
  else
    match env.agentLogic e.message conv with
    | .ok r => (create env ("Response to " ++ e.fromAgent ++ ": " ++ r), [.logicCall e.message conv])
    | .error ex =>
      (create env ("Error processing message from agent: " ++ ex), [.logicCall e.message conv])

/-- The hard-coded local fallback table of `_lookup_agent`. -/
def localLookup (agentId : String) : Option String :=
  if agentId = "test_agent" then some "http://localhost:6000" else none

/-- `SimpleAgentBridge._lookup_agent`: registry GET first (its 200
response is returned even when `agent_url` is absent), local table on
non-200 or exception, `None` otherwise. -/
def lookup_agent (env : BridgeEnv) (agentId : String) : Option String × List Event :=
  match env.registryUrl with
  | some rurl =>
    let ev := [Event.httpGet (rurl ++ "/lookup/" ++ agentId)]
    match env.registryLookup agentId with
    | .found u => (u, ev)
    | .notFound => (localLookup agentId, ev)
    | .failed _ => (localLookup agentId, ev)
  | none => (localLookup agentId, [])

/-- `SimpleAgentBridge._send_to_agent`: resolve, normalise the `/a2a`
endpoint, deliver the three-line envelope, and render the peer's reply
(or a delivery confirmation); its `except` converts any raised error
into an error string. -/
def send_to_agent (env : BridgeEnv) (target msgText _conv : String) : String × List Event :=
  match lookup_agent env target with
  | (none, ev) => ("Agent " ++ target ++ " not found", ev)
  | (some url, ev) =>
    let url2 := if pyEndsWith url "/a2a" then url else url ++ "/a2a"
    let envl := "FROM: " ++ env.agentId ++ "\nTO: " ++ target ++ "\nMESSAGE: " ++ msgText
    let ev2 := ev ++ [.a2aSend url2]
    match env.sendA2A url2 envl with
    | .error e => ("❌ Error sending to " ++ target ++ ": " ++ e, ev2)
    | .ok .noResponse => ("Message sent to " ++ target ++ ": " ++ msgText, ev2)
    | .ok (.noParts s) => ("[" ++ target ++ "] " ++ s, ev2)
    | .ok (.withParts tx) => ("[" ++ target ++ "] " ++ tx, ev2)

/-- `SimpleAgentBridge._handle_agent_message`: split `@id text` on the
first space; sigil stripped from the target. -/
def handle_agent_message (env : BridgeEnv) (t conv : String) : String × List Event :=
  match splitFirstAux ' ' t.data with
  | none => (create env "Invalid format. Use \x27@agent_id message\x27", [])
  | some (p0, p1) =>
    let target := String.mk (p0.drop 1)
    match send_to_agent env target (String.mk p1) conv with
    | (r, ev) => (create env r, ev)

/-- The `/help` text (agent_bridge.py lines 176-182; note the two
trailing spaces after "responsiveness" in the source). -/
def helpText : String :=
  "Available commands:\n/help - Show this help\n/ping - Test agent responsiveness  \n/status - Show agent status\n@agent_id message - Send message to another agent\n#nanda:server-name query - Query NANDA MCP server\n#smithery:server-name query - Query Smithery MCP server"

/-- `SimpleAgentBridge._handle_command`. -/
def handle_command (env : BridgeEnv) (t : String) : String :=
  let command :=
    match splitFirstAux ' ' t.data with
    | none => String.mk (t.data.drop 1)
    | some (p0, _) => String.mk (p0.drop 1)
  if command = "help" then create env helpText
  else if command = "ping" then create env "Pong!"
  else if command = "status" then
    let s := "Agent: " ++ env.agentId ++ ", Status: Running"
    let s := match env.registryUrl with
      | some r => s ++ ", Registry: " ++ r
      | none => s
    let s := match env.mcpRegistryUrl with
      | some m => s ++ ", MCP Registry: " ++ m
      | none => s
    create env s
  else create env ("Unknown command: " ++ command ++ ". Use /help for available commands")

/-- `SimpleAgentBridge._run_mcp_query_sync` / `_run_mcp_async`: for a
Smithery query with a configured key the API key is appended to the
URL; a raised query error is caught inside `_run_mcp_async` and
rendered as `"❌ MCP query failed: <e>"`. -/
def run_mcp_query (env : BridgeEnv) (serverUrl query registryType : String) :
    String × List Event :=
  let finalUrl :=
    if registryType = "smithery" && env.smitheryApiKey ≠ "" then
      serverUrl ++ (if containsChar serverUrl '?' then "&" else "?") ++
        "api_key=" ++ env.smitheryApiKey
    else serverUrl
  match env.mcpQuery finalUrl query with
  | .ok r => (r, [.mcpExec finalUrl query])
  | .error e => ("❌ MCP query failed: " ++ e, [.mcpExec finalUrl query])

/-- `SimpleAgentBridge._handle_mcp_message` (`MCP_AVAILABLE` holds:
both imported modules exist in the repo).  Parses
`#registry:server-name query`, resolves the server through the
directory client, runs the query, and renders every failure as a
user-visible `❌` message. -/
def handle_mcp_message (env : BridgeEnv) (t _conv : String) : String × List Event :=
  if ¬ containsChar t ':' then
    (create env "❌ Invalid MCP message format. Use: #registry:server-name query", [])
  else
    match splitFirstAux ':' (pyDropChars t 1).data with
    | none =>
      -- unreachable when `t` starts with `#` and contains a colon
      (create env "❌ Invalid MCP message format. Use: #registry:server-name query", [])
    | some (regPart, rest) =>
      match splitFirstAux ' ' rest with
      | none =>
        (create env "❌ Invalid MCP message format. Use: #registry:server-name query", [])
      | some (serverNameL, queryL) =>
        let registryPart := String.mk regPart
        let serverName := String.mk serverNameL
        let query := String.mk queryL
        match env.mcpRegistryUrl with
        | none => (create env "❌ MCP registry URL not configured", [])
        | some mcpUrl =>
          let res := get_mcp_server_info env mcpUrl registryPart serverName
          match res.1 with
          | none =>
            (create env ("❌ MCP server \x27" ++ serverName ++ "\x27 not found in " ++
              registryPart ++ " registry"), res.2)
          | some info =>
            match info.serverUrl with
            | none =>
              (create env ("❌ No server URL found for \x27" ++ serverName ++ "\x27"), res.2)
            | some u =>
              if pyTruthy u then
                let qr := run_mcp_query env (pyStr u) query registryPart
                (create env ("🔧 " ++ pyTitle registryPart ++ " MCP [" ++ serverName ++
                  "]: " ++ qr.1), res.2 ++ qr.2)
              else
                (create env ("❌ No server URL found for \x27" ++ serverName ++ "\x27"), res.2)

inductive Route where
  | envelope
  | atMsg
  | mcp
  | cmd
  | plain
deriving DecidableEq

/-- The envelope test of `handle_message` line 66. -/
def isEnvelope (t : String) : Bool :=
  pyStartsWith t "FROM:" && strContains t "TO:" && strContains t "MESSAGE:"

/-- The classification chain of `handle_message` (lines 66-91), in
source order: envelope test first, then the `@`/`#`/`/` sigils, else a
plain conversational turn. -/
def classify (t : String) : Route :=
  if isEnvelope t then .envelope
  else if pyStartsWith t "@" then .atMsg
  else if pyStartsWith t "#" then .mcp
  else if pyStartsWith t "/" then .cmd
  else .plain

inductive Content where
  | text (s : String)
  | other

/-- The dispatch body of `handle_message`.  The envelope branch is
internally caught; the `@`, `#` and `/` handlers cannot raise (each
converts its failures itself); a raised agent-logic error on the plain
path escapes to `handle_message`'s `try`. -/
def routeInner (env : BridgeEnv) (t conv : String) :
    Except (String × List Event) (String × List Event) :=
  match classify t with
  | .envelope => .ok (handle_incoming_agent env t conv)
  | .atMsg => .ok (handle_agent_message env t conv)
  | .mcp => .ok (handle_mcp_message env t conv)
  | .cmd => .ok (handle_command env t, [])
  | .plain =>
    match env.agentLogic t conv with
    | .ok r => .ok (create env r, [.logicCall t conv])
    | .error e => .error (e, [.logicCall t conv])

/-- `SimpleAgentBridge.handle_message`: non-text content is rejected,
envelopes are handled by the incoming-agent handler, and the
surrounding `try` converts any escaped error into `"Error: <e>"`.  The
result pairs the reply text with the trace of recorded events; an
`Except.error` would model an exception escaping to the transport
layer. -/
def handle_message (env : BridgeEnv) (c : Content) (conv : String) :
    Except String (String × List Event) :=
  match c with
  | .other => .ok (create env "Only text messages supported", [])
  | .text t =>
    match routeInner env t conv with
    | .ok r => .ok r
    | .error (e, ev) => .ok (create env ("Error: " ++ e), ev)

/-! ### Claim-side definitions and concrete instances -/

/-- The Smithery URL-selection rule as the specification words it
(§4.2): prefer the first http-typed connection's deployment URL over
any stdio-typed connection, else the first stdio-typed connection's
deployment URL, else the top-level deployment URL.  Written from the
spec for comparison against `build_smithery_server_url`. -/
def claimSelect (info : Json) : Option Json :=
  match info with
  | .obj kvs =>
    match (assocGet kvs "connections").getD (.arr []) with
    | .arr cs =>
      match cs.findSome? (fun c => match c with
        | .obj o =>
          if hasTypeVal o "http" && optTruthy (assocGet o "deploymentUrl") then
            assocGet o "deploymentUrl"
          else none
        | _ => none) with
      | some u => some u
      | none =>
        match cs.findSome? (fun c => match c with
          | .obj o => if hasTypeVal o "stdio" then some (assocGet o "deploymentUrl") else none
          | _ => none) with
        | some u => u
        | none => assocGet kvs "deploymentUrl"
    | _ => assocGet kvs "deploymentUrl"
  | _ => none

/-- The per-connection condition at which `findMcpConn` stops. -/
def prefConn (c : List (String × Json)) : Bool :=
  (hasTypeVal c "http" && optTruthy (assocGet c "deploymentUrl")) || hasTypeVal c "stdio"

/-- A connection list holding a stdio-typed connection **before** an
http-typed one, both carrying deployment URLs. -/
def c4cs : List (List (String × Json)) :=
  [[("type", .str "stdio"), ("deploymentUrl", .str "s")],
   [("type", .str "http"), ("deploymentUrl", .str "h")]]

def c4kvs : List (String × Json) :=
  [("deploymentUrl", .str "top"), ("connections", .arr (c4cs.map Json.obj))]

/-- A Smithery server-info response built from `c4cs`. -/
def c4ex : Json := .obj c4kvs

/-- An orchestrator environment whose model answers the first query
with a single JSON-object text block and no tool invocation. -/
def c3env : MCPEnv where
  tools := some [⟨"echo", "echo tool"⟩]
  model := fun _ => [.text "\x7b\"a\": 1\x7d"]
  callTool := fun _ _ => .ok "unused"

/-- An orchestrator environment whose model answers with plain text. -/
def c3envPlain : MCPEnv where
  tools := some [⟨"echo", "echo tool"⟩]
  model := fun _ => [.text "all done"]
  callTool := fun _ _ => .ok "unused"

/-- A bridge with no Smithery API key configured; the Smithery registry
itself would resolve the server were it asked. -/
def c5env : BridgeEnv where
  agentId := "alice"
  registryUrl := none
  mcpRegistryUrl := some "http://mcp.example"
  smitheryApiKey := ""
  agentLogic := fun m c => .ok ("logic:" ++ m ++ ":" ++ c)
  registryLookup := fun _ => .notFound
  sendA2A := fun _ _ => .ok .noResponse
  smitheryFetch := fun _ => some (.obj [("deploymentUrl", .str "https://dep.example")])
  nandaFetch := fun _ => none
  mcpQuery := fun _ _ => .ok "result"

/-- A bridge used by the witnesses: registry configured but resolving
nothing, agent logic total. -/
def wenv : BridgeEnv where
  agentId := "agentX"
  registryUrl := some "http://registry.example"
  mcpRegistryUrl := none
  smitheryApiKey := ""
  agentLogic := fun m c => .ok ("logic:" ++ m ++ ":" ++ c)
  registryLookup := fun _ => .notFound
  sendA2A := fun _ _ => .ok .noResponse
  smitheryFetch := fun _ => none
  nandaFetch := fun _ => none
  mcpQuery := fun _ _ => .ok "result"

/-! ### Supporting lemmas -/

theorem mk_data (s : String) : String.mk s.data = s := rfl

theorem chPre_append (p l : List Char) : chPre p (p ++ l) = true := by
  induction p with
  | nil => rfl
  | cons c cs ih => simp [chPre, ih]

theorem chPre_cons_false (a b : Char) (l1 l2 : List Char) (h : a ≠ b) :
    chPre (a :: l1) (b :: l2) = false := by
  simp [chPre, h]

theorem pyStartsWith_of_data (p s : String) (l : List Char) (h : s.data = p.data ++ l) :
    pyStartsWith s p = true := by
  rw [pyStartsWith, h]; exact chPre_append p.data l

theorem pyDropChars_of_data (s b : String) (n : Nat) (pre : List Char)
    (h : s.data = pre ++ b.data) (hn : n = pre.length) : pyDropChars s n = b := by
  rw [pyDropChars, h, hn, List.drop_left]

theorem splitFirstAux_append (c : Char) (l1 l2 : List Char) (h : c ∉ l1) :
    splitFirstAux c (l1 ++ c :: l2) = some (l1, l2) := by
  induction l1 with
  | nil => simp [splitFirstAux]
  | cons x xs ih =>
    simp only [List.mem_cons, not_or] at h
    have hx : ¬ x = c := fun he => h.1 he.symm
    simp [splitFirstAux, hx, ih h.2]

theorem pyStartsWith_ne_head (t p : String) (a b : Char) (l pl : List Char)
    (ht : t.data = a :: l) (hp : p.data = b :: pl) (hne : b ≠ a) :
    pyStartsWith t p = false := by
  rw [pyStartsWith, ht, hp]
  exact chPre_cons_false _ _ _ _ hne

theorem classify_eq_atMsg (t : String) (l : List Char) (ht : t.data = '@' :: l) :
    classify t = .atMsg := by
  have h1 : pyStartsWith t "FROM:" = false :=
    pyStartsWith_ne_head t _ _ 'F' l "ROM:".data ht rfl (by decide)
  have h2 : pyStartsWith t "@" = true := by
    rw [pyStartsWith, ht]
    simp [chPre]
  rw [classify, isEnvelope, h1]
  simp [h2]

theorem classify_eq_mcp (t : String) (l : List Char) (ht : t.data = '#' :: l) :
    classify t = .mcp := by
  have h1 : pyStartsWith t "FROM:" = false :=
    pyStartsWith_ne_head t _ _ 'F' l "ROM:".data ht rfl (by decide)
  have h2 : pyStartsWith t "@" = false :=
    pyStartsWith_ne_head t _ _ '@' l [] ht rfl (by decide)
  have h3 : pyStartsWith t "#" = true := by
    rw [pyStartsWith, ht]
    simp [chPre]
  rw [classify, isEnvelope, h1]
  simp [h2, h3]

theorem handle_incoming_agent_shape (env : BridgeEnv) (t conv : String) :
    ∃ b, (handle_incoming_agent env t conv).1 = create env b := by
  rw [handle_incoming_agent]
  split
  · exact ⟨_, rfl⟩
  · split <;> exact ⟨_, rfl⟩

theorem handle_agent_message_shape (env : BridgeEnv) (t conv : String) :
    ∃ b, (handle_agent_message env t conv).1 = create env b := by
  rw [handle_agent_message]
  split
  · exact ⟨_, rfl⟩
  · exact ⟨_, rfl⟩

theorem handle_command_shape (env : BridgeEnv) (t : String) :
    ∃ b, handle_command env t = create env b := by
  rw [handle_command]
  repeat' split
  all_goals exact ⟨_, rfl⟩

theorem handle_mcp_message_shape (env : BridgeEnv) (t conv : String) :
    ∃ b, (handle_mcp_message env t conv).1 = create env b := by
  rw [handle_mcp_message]
  dsimp only
  repeat' split
  all_goals exact ⟨_, rfl⟩

theorem routeInner_ok_shape (env : BridgeEnv) (t conv : String) (r : String × List Event)
    (h : routeInner env t conv = .ok r) : ∃ b, r.1 = create env b := by
  rw [routeInner] at h
  cases hc : classify t <;> rw [hc] at h
  case envelope =>
    obtain ⟨b, hb⟩ := handle_incoming_agent_shape env t conv
    cases h
    exact ⟨b, hb⟩
  case atMsg =>
    obtain ⟨b, hb⟩ := handle_agent_message_shape env t conv
    cases h
    exact ⟨b, hb⟩
  case mcp =>
    obtain ⟨b, hb⟩ := handle_mcp_message_shape env t conv
    cases h
    exact ⟨b, hb⟩
  case cmd =>
    obtain ⟨b, hb⟩ := handle_command_shape env t
    cases h
    exact ⟨b, hb⟩
  case plain =>
    cases hl : env.agentLogic t conv <;> rw [hl] at h
    · cases h
    · cases h
      exact ⟨_, rfl⟩

theorem handle_message_shape (env : BridgeEnv) (c : Content) (conv : String) :
    ∃ b ev, handle_message env c conv = .ok (create env b, ev) := by
  cases c with
  | other => exact ⟨"Only text messages supported", [], rfl⟩
  | text t =>
    rw [handle_message]
    cases hr : routeInner env t conv with
    | error pe =>
      exact ⟨"Error: " ++ pe.1, pe.2, by simp⟩
    | ok r =>
      obtain ⟨b, hb⟩ := routeInner_ok_shape env t conv r hr
      exact ⟨b, r.2, by simp [← hb]⟩

/-! ### The claims -/

/-- C9: for every inbound content and conversation id, the message
router's handler never raises to its caller — every classification
path returns an ordinary reply. -/
theorem c9_router_never_throws (env : BridgeEnv) (c : Content) (conv : String) :
    ∃ r, handle_message env c conv = Except.ok r := by
  obtain ⟨b, ev, h⟩ := handle_message_shape env c conv
  exact ⟨_, h⟩

/-- C10: every reply produced by the router, on every path, has a text
body beginning with the literal prefix `"[<agentId>] "` of the
responding agent. -/
theorem c10_sender_tag_prefix (env : BridgeEnv) (c : Content) (conv : String) :
    ∃ body ev, handle_message env c conv =
      Except.ok ("[" ++ env.agentId ++ "] " ++ body, ev) := by
  obtain ⟨b, ev, h⟩ := handle_message_shape env c conv
  exact ⟨b, ev, h⟩

/-- C7: the response formatter is the identity on a plain string that
neither parses as JSON nor contains a brace-delimited fragment that
parses as JSON; applying it twice therefore also returns the string. -/
theorem c7_formatter_idempotent (x : String)
    (h1 : jsonLoads x = none) (h2 : extractedJson x = none) :
    parse_result x = .ok x ∧ (parse_result x).bind parse_result = .ok x := by
  have hx : parse_result x = .ok x := by
    rw [parse_result, h1, extract_and_format_json]
    cases hb : braceFragment x with
    | none => rfl
    | some frag =>
      have h2f : jsonLoads frag = none := by
        rw [extractedJson, hb, Option.some_bind] at h2
        exact h2
      simp [h2f]
  refine ⟨hx, ?_⟩
  rw [hx]
  exact hx

/-- C7 witness. -/
theorem c7_witness :
    parse_result "just a plain reply" = .ok "just a plain reply" ∧
      (parse_result "just a plain reply").bind parse_result = .ok "just a plain reply" :=
  c7_formatter_idempotent "just a plain reply" (by rfl) (by rfl)

/-- C8: inside a mapping value, a list renders only its first five
items, with an elision note counting the omitted items; a top-level
list renders only its first ten, likewise. -/
theorem c8_list_caps (k : String) (xs ys : List Json)
    (h5 : 5 < xs.length) (h10 : 10 < ys.length) :
    format_json_response (.obj [(k, .arr xs)]) =
      String.intercalate "\n" ((("📋 " ++ humanKey k ++ ":") ::
        (xs.take 5).enum.flatMap (fun p => renderNestedItem p.1 p.2)) ++
        ["  ... and " ++ toString (xs.length - 5) ++ " more items"]) ∧
    format_json_response (.arr ys) =
      String.intercalate "\n" ((ys.take 10).enum.flatMap (fun p => renderTopItem p.1 p.2) ++
        ["... and " ++ toString (ys.length - 10) ++ " more items"]) := by
  constructor
  · show formatCore (.obj [(k, .arr xs)]) = _
    rw [formatCore]
    simp [renderDictEntry, h5]
  · show formatCore (.arr ys) = _
    rw [formatCore]
    simp [h10]

/-- C8 witness: a six-element nested list and an eleven-element
top-level list. -/
theorem c8_witness :
    format_json_response (.obj [("items", .arr (List.replicate 6 Json.null))]) =
      String.intercalate "\n" ((("📋 " ++ humanKey "items" ++ ":") ::
        ((List.replicate 6 Json.null).take 5).enum.flatMap
          (fun p => renderNestedItem p.1 p.2)) ++
        ["  ... and " ++ toString ((List.replicate 6 Json.null).length - 5) ++ " more items"]) ∧
    format_json_response (.arr (List.replicate 11 Json.null)) =
      String.intercalate "\n"
        (((List.replicate 11 Json.null).take 10).enum.flatMap
          (fun p => renderTopItem p.1 p.2) ++
        ["... and " ++ toString ((List.replicate 11 Json.null).length - 10) ++ " more items"]) :=
  c8_list_caps "items" (List.replicate 6 Json.null) (List.replicate 11 Json.null)
    (by decide) (by decide)

/-- C3 counterexample: when the single text block of the first
response is a JSON object, the orchestrator's return value is the
*formatted* rendering, not the newline-joined concatenation of the
text blocks (neither raw nor stripped). -/
theorem c3_counterexample :
    execute_query c3env 1 "q" = ("🔹 A: 1", 1, 0) ∧
    joinTextBlocks (c3env.model 0) = "\x7b\"a\": 1\x7d\n" ∧
    "🔹 A: 1" ≠ "\x7b\"a\": 1\x7d\n" ∧
    "🔹 A: 1" ≠ pyStrip "\x7b\"a\": 1\x7d\n" := by
  refine ⟨rfl, rfl, by decide, by decide⟩

/-- The `while True` loop returns immediately, with no tool call, when
the current response has no tool-invocation block. -/
theorem toolLoop_no_tools (env : MCPEnv) (fuel : Nat) (blocks : List CBlock)
    (round calls : Nat) (h : hasToolUse blocks = false) :
    toolLoop env fuel blocks round calls = .ok (blocks, round, calls) := by
  rw [toolLoop.eq_def, h]
  simp

/-- C3 amended: when the model's first response contains zero
tool-invocation blocks, the orchestrator makes exactly one model round
trip and zero tool calls, and returns the response formatter applied to
the stripped newline-joined concatenation of that response's text
blocks (the fixed no-response message when there are no text blocks). -/
theorem c3_amended (env : MCPEnv) (fuel : Nat) (query : String) (t0 : ToolDef)
    (ts : List ToolDef) (htools : env.tools = some (t0 :: ts))
    (hnb : hasToolUse (env.model 0) = false) :
    execute_query env fuel query =
      ((if joinTextBlocks (env.model 0) = "" then "No response generated"
        else
          match parse_result (pyStrip (joinTextBlocks (env.model 0))) with
          | .ok r => r
          | .error e => "❌ MCP error: " ++ e), 1, 0) := by
  rw [execute_query, htools]
  rw [toolLoop_no_tools env fuel (env.model 0) 1 0 hnb]
  dsimp only
  by_cases hj : joinTextBlocks (env.model 0) = ""
  · simp [hj]
  · simp only [hj, if_false, if_neg hj]
    cases hp : parse_result (pyStrip (joinTextBlocks (env.model 0))) <;> simp

/-- C3 amended, witness: a plain-text single-block response comes back
verbatim after one round trip and zero tool calls. -/
theorem c3_witness :
    execute_query c3envPlain 1 "q" =
      ((if joinTextBlocks (c3envPlain.model 0) = "" then "No response generated"
        else
          match parse_result (pyStrip (joinTextBlocks (c3envPlain.model 0))) with
          | .ok r => r
          | .error e => "❌ MCP error: " ++ e), 1, 0) :=
  c3_amended c3envPlain 1 "q" ⟨"echo", "echo tool"⟩ [] rfl rfl

/-- C4 counterexample: with a stdio-typed connection listed before an
http-typed one, the code selects the stdio connection's deployment URL
while the claimed rule selects the http connection's. -/
theorem c4_counterexample :
    build_smithery_server_url c4ex = some (.str "s") ∧
    claimSelect c4ex = some (.str "h") ∧
    Json.str "s" ≠ Json.str "h" :=
  ⟨rfl, rfl, by decide⟩

/-- The connection scan over a list of dict connections is the first
entry satisfying `prefConn`. -/
theorem findMcpConn_map (cs : List (List (String × Json))) :
    findMcpConn (cs.map Json.obj) = some (cs.find? prefConn) := by
  induction cs with
  | nil => rfl
  | cons c rest ih =>
    rw [List.map_cons, findMcpConn]
    show (if prefConn c = true then some (some c) else findMcpConn (rest.map Json.obj)) = _
    by_cases h : prefConn c = true
    · rw [if_pos h, List.find?_cons_of_pos _ h]
    · rw [if_neg h, ih, List.find?_cons_of_neg _ h]

/-- C4 amended: the scan stops at the *first* connection that is
either http-typed with a deployment URL or stdio-typed — a stdio
connection earlier in the list pre-empts a later http connection.  The
selected connection's deployment URL is used when present, else the
top-level deployment URL; with no qualifying connection, the top-level
URL; and everything requires the top-level deployment URL to be truthy
in the first place. -/
theorem c4_amended (kvs : List (String × Json)) (cs : List (List (String × Json)))
    (hconn : (assocGet kvs "connections").getD (.arr []) = .arr (cs.map Json.obj))
    (hdep : optTruthy (assocGet kvs "deploymentUrl") = true) :
    build_smithery_server_url (.obj kvs) =
      (match cs.find? prefConn with
       | some c =>
         if optTruthy (assocGet c "deploymentUrl") then assocGet c "deploymentUrl"
         else assocGet kvs "deploymentUrl"
       | none => assocGet kvs "deploymentUrl") := by
  rw [build_smithery_server_url]
  dsimp only
  rw [hconn]
  dsimp only
  rw [findMcpConn_map, if_pos hdep]
  cases hf : cs.find? prefConn with
  | none => simp
  | some c =>
    have hc : prefConn c = true := List.find?_some hf
    have hne : c ≠ [] := by
      intro he
      rw [he] at hc
      exact absurd hc (by decide)
    have hobj : pyTruthy (.obj c) = true := by
      cases c with
      | nil => exact absurd rfl hne
      | cons a l => rfl
    simp only [hobj, Bool.true_and]

/-- C4 amended, witness: at the counterexample input the code's choice
agrees with the amended characterisation. -/
theorem c4_witness :
    build_smithery_server_url (.obj c4kvs) =
      (match c4cs.find? prefConn with
       | some c =>
         if optTruthy (assocGet c "deploymentUrl") then assocGet c "deploymentUrl"
         else assocGet c4kvs "deploymentUrl"
       | none => assocGet c4kvs "deploymentUrl") :=
  c4_amended c4kvs c4cs rfl rfl

/-- C2 counterexample: a text containing all three labels but not
*starting* with `FROM:` is not classified as an inbound agent
envelope (here the `@` sigil wins). -/
theorem c2_counterexample :
    strContains "@x FROM: a TO: b MESSAGE: c" "FROM:" = true ∧
    strContains "@x FROM: a TO: b MESSAGE: c" "TO:" = true ∧
    strContains "@x FROM: a TO: b MESSAGE: c" "MESSAGE:" = true ∧
    classify "@x FROM: a TO: b MESSAGE: c" ≠ Route.envelope := by
  refine ⟨by decide, by decide, by decide, by decide⟩

/-- C2 amended: a text routes to the envelope handler iff it *starts
with* `FROM:` and contains `TO:` and `MESSAGE:`; that check is the
first of the classification chain, so it does take priority over the
sigils and the plain-turn fallback. -/
theorem c2_amended (t : String) :
    classify t = Route.envelope ↔
      (pyStartsWith t "FROM:" = true ∧ strContains t "TO:" = true ∧
        strContains t "MESSAGE:" = true) := by
  rw [classify]
  constructor
  · intro h
    by_cases he : isEnvelope t = true
    · rw [isEnvelope] at he
      simpa [Bool.and_eq_true, and_assoc] using he
    · rw [if_neg he] at h
      exfalso
      revert h
      repeat' split
      all_goals simp
  · rintro ⟨h1, h2, h3⟩
    have he : isEnvelope t = true := by
      rw [isEnvelope]
      simp [h1, h2, h3]
    rw [if_pos he]

/-- C5 counterexample: with no Smithery API key configured, the reply
to a `#smithery:` query is the generic not-found message — it carries
no API-key-specific error — and the recorded trace is empty, even
though the Smithery registry itself would have resolved the server. -/
theorem c5_counterexample :
    handle_message c5env (.text "#smithery:foo hello") "conv" =
      .ok ("[alice] ❌ MCP server \x27foo\x27 not found in smithery registry", []) ∧
    strContains "[alice] ❌ MCP server \x27foo\x27 not found in smithery registry"
      "API key" = false ∧
    c5env.smitheryFetch "foo" = some (.obj [("deploymentUrl", .str "https://dep.example")]) :=
  ⟨rfl, by decide, rfl⟩

/-- C5 amended: with no Smithery API key configured, resolution fails
before any network call (the recorded event trace is empty, so neither
the registry nor a deployment URL is contacted), but the user-visible
reply is the generic `"❌ MCP server '<name>' not found in smithery
registry"` message: the API-key-specific error is only logged, never
surfaced in the reply. -/
theorem c5_amended (env : BridgeEnv) (name q conv u : String)
    (hkey : env.smitheryApiKey = "")
    (hurl : env.mcpRegistryUrl = some u)
    (hname : ' ' ∉ name.data) :
    handle_message env (.text ("#smithery:" ++ name ++ " " ++ q)) conv =
      .ok ("[" ++ env.agentId ++ "] " ++
        ("❌ MCP server \x27" ++ name ++ "\x27 not found in smithery registry"), []) := by
  have ht : ("#smithery:" ++ name ++ " " ++ q).data =
      '#' :: ("smithery".data ++ ':' :: (name.data ++ ' ' :: q.data)) := by
    have hA : ("#smithery:" : String).data = '#' :: ("smithery".data ++ [':']) := rfl
    have hsp : (" " : String).data = [' '] := rfl
    simp [String.data_append, hA, hsp, List.append_assoc]
  have hclass := classify_eq_mcp _ _ ht
  rw [handle_message, routeInner, hclass]
  dsimp only
  have hcontain : containsChar ("#smithery:" ++ name ++ " " ++ q) ':' = true := by
    rw [containsChar, ht]
    simp
  rw [handle_mcp_message, hcontain]
  have hdrop : (pyDropChars ("#smithery:" ++ name ++ " " ++ q) 1).data =
      "smithery".data ++ ':' :: (name.data ++ ' ' :: q.data) := by
    rw [pyDropChars, ht]
    rfl
  have hsplit1 : splitFirstAux ':' (pyDropChars ("#smithery:" ++ name ++ " " ++ q) 1).data =
      some ("smithery".data, name.data ++ ' ' :: q.data) := by
    rw [hdrop]
    exact splitFirstAux_append ':' "smithery".data _ (by decide)
  rw [hsplit1]
  simp only [not_true, if_false]
  have hsplit2 : splitFirstAux ' ' (name.data ++ ' ' :: q.data) = some (name.data, q.data) :=
    splitFirstAux_append ' ' name.data q.data hname
  rw [hsplit2]
  dsimp only
  rw [hurl]
  dsimp only
  have hres : get_mcp_server_info env u (String.mk "smithery".data) (String.mk name.data) =
      (none, []) := by
    have hsm : String.mk "smithery".data = "smithery" := rfl
    rw [hsm, get_mcp_server_info]
    have hlow : pyLower "smithery" = "smithery" := rfl
    rw [hlow, if_pos rfl, get_smithery_mcp_server_info_complete, if_pos hkey]
  rw [hres]
  dsimp only
  have hstr : "❌ MCP server \x27" ++ String.mk name.data ++ "\x27 not found in " ++
      String.mk "smithery".data ++ " registry" =
      "❌ MCP server \x27" ++ name ++ "\x27 not found in smithery registry" := by
    rw [mk_data]
    apply String.ext
    simp [String.data_append, List.append_assoc]
  rw [create, hstr]

/-- C5 amended, witness. -/
theorem c5_witness :
    handle_message c5env (.text ("#smithery:" ++ "foo" ++ " " ++ "hello")) "conv" =
      .ok ("[" ++ c5env.agentId ++ "] " ++
        ("❌ MCP server \x27foo\x27 not found in smithery registry"), []) :=
  c5_amended c5env "foo" "hello" "conv" "http://mcp.example" rfl rfl (by decide)

/-- C6: for an outbound `@id text` whose target neither resolves
through the agent registry (no 200 response carrying an `agent_url`)
nor appears in the local fallback table, the reply is exactly
`"Agent <id> not found"` behind the responding agent's sender tag. -/
theorem c6_agent_not_found (env : BridgeEnv) (id txt conv : String)
    (hid : ' ' ∉ id.data)
    (hreg : ∀ x, env.registryLookup id ≠ .found (some x))
    (hlocal : ¬ id = "test_agent") :
    ∃ ev, handle_message env (.text ("@" ++ id ++ " " ++ txt)) conv =
      .ok ("[" ++ env.agentId ++ "] " ++ ("Agent " ++ id ++ " not found"), ev) := by
  have ht : ("@" ++ id ++ " " ++ txt).data = '@' :: (id.data ++ ' ' :: txt.data) := by
    have h1 : ("@" : String).data = ['@'] := rfl
    have hsp : (" " : String).data = [' '] := rfl
    simp [String.data_append, h1, hsp, List.append_assoc]
  have hclass := classify_eq_atMsg _ _ ht
  rw [handle_message, routeInner, hclass]
  dsimp only
  rw [handle_agent_message]
  have hsplit : splitFirstAux ' ' ("@" ++ id ++ " " ++ txt).data =
      some ('@' :: id.data, txt.data) := by
    rw [ht]
    have hshape : '@' :: (id.data ++ ' ' :: txt.data) = ('@' :: id.data) ++ ' ' :: txt.data := by
      simp
    rw [hshape]
    refine splitFirstAux_append ' ' ('@' :: id.data) txt.data ?_
    simp only [List.mem_cons, not_or]
    exact ⟨by decide, hid⟩
  rw [hsplit]
  dsimp only
  simp only [List.drop_succ_cons, List.drop_zero, mk_data]
  rw [send_to_agent]
  have hlk : ∃ ev0, lookup_agent env id = (none, ev0) := by
    rw [lookup_agent]
    cases hr : env.registryUrl with
    | none =>
      rw [localLookup, if_neg hlocal]
      exact ⟨[], rfl⟩
    | some rurl =>
      cases hl : env.registryLookup id with
      | found x =>
        cases x with
        | none => exact ⟨_, rfl⟩
        | some y => exact absurd hl (hreg y)
      | notFound =>
        rw [localLookup, if_neg hlocal]
        exact ⟨_, rfl⟩
      | failed e =>
        rw [localLookup, if_neg hlocal]
        exact ⟨_, rfl⟩
  obtain ⟨ev0, hlk⟩ := hlk
  rw [hlk]
  exact ⟨ev0, rfl⟩

/-- C6 witness. -/
theorem c6_witness :
    ∃ ev, handle_message wenv (.text ("@" ++ "bob" ++ " " ++ "hello")) "conv" =
      .ok ("[" ++ wenv.agentId ++ "] " ++ ("Agent " ++ "bob" ++ " not found"), ev) :=
  c6_agent_not_found wenv "bob" "hello" "conv" (by decide)
    (fun x h => by simp [wenv] at h) (by decide)

/-- C1: for **every** inbound envelope whose parsed MESSAGE body
starts with the reply marker `"Response to "` — well-formed echo or
not — the router records no events at all (in particular the
agent-logic callback is never invoked) and replies
`[<senderId>] <remainder>` behind its own sender tag, where the
remainder is the body with `len("Response to " + agentId + ": ")`
characters stripped; for a well-formed echo
`Response to <selfId>: <rest>` that remainder is exactly `<rest>`,
i.e. the body with the marker and sender-echo stripped. -/
theorem c1_reply_suppression (env : BridgeEnv) (t conv : String)
    (henv : isEnvelope t = true)
    (hm : pyStartsWith (parseEnvelope t).message replyMarker = true) :
    handle_message env (.text t) conv =
      .ok ("[" ++ env.agentId ++ "] " ++ ("[" ++ (parseEnvelope t).fromAgent ++ "] " ++
        pyDropChars (parseEnvelope t).message (replyMarker ++ env.agentId ++ ": ").length),
        []) ∧
    ∀ rest : String,
      (parseEnvelope t).message = "Response to " ++ env.agentId ++ ": " ++ rest →
      pyDropChars (parseEnvelope t).message (replyMarker ++ env.agentId ++ ": ").length =
        rest := by
  constructor
  · have hclass : classify t = .envelope := by rw [classify, if_pos henv]
    rw [handle_message, routeInner, hclass]
    dsimp only
    rw [handle_incoming_agent]
    rw [if_pos hm]
    rfl
  · intro rest hr
    rw [hr]
    apply pyDropChars_of_data _ _ _ (("Response to " ++ env.agentId ++ ": ").data)
    · rw [← String.data_append]
    · rfl

/-- C1 witness: spec scenario 3 — agent `alice` receiving
`FROM: bob / TO: alice / MESSAGE: Response to alice: hi`. -/
theorem c1_witness :
    (handle_message c5env
        (.text "FROM: bob\nTO: alice\nMESSAGE: Response to alice: hi") "conv" =
      .ok ("[" ++ c5env.agentId ++ "] " ++ ("[" ++
        (parseEnvelope "FROM: bob\nTO: alice\nMESSAGE: Response to alice: hi").fromAgent ++
        "] " ++
        pyDropChars
          (parseEnvelope "FROM: bob\nTO: alice\nMESSAGE: Response to alice: hi").message
          (replyMarker ++ c5env.agentId ++ ": ").length), [])) ∧
    ∀ rest : String,
      (parseEnvelope "FROM: bob\nTO: alice\nMESSAGE: Response to alice: hi").message =
        "Response to " ++ c5env.agentId ++ ": " ++ rest →
      pyDropChars
        (parseEnvelope "FROM: bob\nTO: alice\nMESSAGE: Response to alice: hi").message
        (replyMarker ++ c5env.agentId ++ ": ").length = rest :=
  c1_reply_suppression c5env "FROM: bob\nTO: alice\nMESSAGE: Response to alice: hi"
    "conv" (by rfl) (by rfl)

end NEST
